import Mathlib

/- Shallow embedding of the AlertWave notification core:
   NotificationManager (src/src/lib/notification/NotificationManager.ts),
   ReminderScheduler (src/src/lib/reminder/ReminderScheduler.ts),
   UserPreferenceManager (src/src/lib/user-preferences/UserPreferenceManager.ts),
   AnalyticsEngine (src/src/lib/auth.ts).
   Timestamps (Date values, Date.now()) are modelled as integer milliseconds;
   ISO timestamp strings that are only carried around, never compared, stay String.
   JS Map objects are modelled as association lists with Map.set / Map.get /
   Map.delete semantics (mapSet, mapGet, mapDelete below). -/

/- Data model, from src/src/lib/types.ts as the core modules use it. -/

structure Alert where
  id : String
  title : String
  message : String
  severity : String
  deliveryTypes : List String
  reminderEnabled : Bool
  reminderFrequencyMinutes : Int
  startTime : Int
  expiryTime : Int
  archived : Bool
  createdAt : Int
  deriving DecidableEq

structure User where
  id : String
  name : String
  teamId : String
  deriving DecidableEq

structure UserAlertPreference where
  id : String
  alertId : String
  userId : String
  read : Bool
  snoozedUntil : Option Int
  lastSnoozedDay : Option String
  deriving DecidableEq

/- JS Map semantics over association lists: get returns the entry for a key,
   set replaces in place or appends, delete removes the entry of a key. -/

def mapGet {A : Type} : List (String × A) → String → Option A
  | [], _ => none
  | (k, v) :: rest, key => if k = key then some v else mapGet rest key

def mapSet {A : Type} : List (String × A) → String → A → List (String × A)
  | [], key, v => [(key, v)]
  | (k, w) :: rest, key, v =>
    if k = key then (key, v) :: rest else (k, w) :: mapSet rest key v

def mapDelete {A : Type} : List (String × A) → String → List (String × A)
  | [], _ => []
  | (k, w) :: rest, key => if k = key then rest else (k, w) :: mapDelete rest key

/- Number of entries stored under a key. -/
def countKey {A : Type} (m : List (String × A)) (key : String) : Nat :=
  (m.filter (fun e => e.1 == key)).length

/- Notification side, from src/src/lib/notification/channels/BaseChannel.ts. -/

structure NotificationPayload where
  alertId : String
  userId : String
  title : String
  message : String
  severity : String
  timestamp : String
  deriving DecidableEq

structure DeliveryResult where
  success : Bool
  deliveryId : String
  timestamp : String
  error : Option String
  deriving DecidableEq

/- A call to a channel deliver method either returns a DeliveryResult or
   throws; the thrown value carries its message string. -/
inductive DeliverOutcome where
  | ok (result : DeliveryResult)
  | throws (msg : String)

/- A registered channel: its isAvailable() value and its deliver behaviour. -/
structure Channel where
  available : Bool
  deliver : NotificationPayload → DeliverOutcome

/- One element of the results array deliverNotification builds: the literal
   object notations of NotificationManager.ts lines 57-61, 67-71, 78-81 and
   98-102. deliveryId and timestamp are present only when a deliver call
   returned a result that was spread into the entry. -/
structure ChannelResult where
  channel : String
  success : Bool
  deliveryId : Option String
  timestamp : Option String
  error : Option String
  deriving DecidableEq

/- One entry of the private deliveryLogs array, NotificationManager.ts
   lines 88-96. -/
structure DeliveryLog where
  id : String
  alertId : String
  userId : String
  channel : String
  delivered : Bool
  deliveredAt : String
  error : Option String
  deriving DecidableEq

namespace NotificationManager

/- The log entry pushed at NotificationManager.ts lines 88-96. The JS
   expression result.deliveryId || `failed_...` falls back exactly when the
   deliveryId string is falsy, that is empty. -/
def logRecord (alert : Alert) (user : User) (channelType : String) (nowMs : Int)
    (r : DeliveryResult) : DeliveryLog :=
  { id := if r.deliveryId = "" then "failed_" ++ toString nowMs else r.deliveryId
    alertId := alert.id
    userId := user.id
    channel := channelType
    delivered := r.success
    deliveredAt := r.timestamp
    error := r.error }

/- The payload built at NotificationManager.ts lines 41-48; ts stands for
   new Date().toISOString(). -/
def payloadFor (alert : Alert) (user : User) (ts : String) : NotificationPayload :=
  { alertId := alert.id
    userId := user.id
    title := alert.title
    message := alert.message
    severity := alert.severity
    timestamp := ts }

/- The for-loop of deliverNotification, lines 53-105: the loop state is the
   running overallSuccess flag, the results array and the deliveryLogs array. -/
def deliverLoop (channels : List (String × Channel)) (payload : NotificationPayload)
    (alert : Alert) (user : User) (nowMs : Int) :
    List String → Bool → List ChannelResult → List DeliveryLog →
    (Bool × List ChannelResult) × List DeliveryLog
  | [], overallSuccess, results, logs => ((overallSuccess, results), logs)
  | channelType :: rest, overallSuccess, results, logs =>
    match mapGet channels channelType with
    | none =>
      deliverLoop channels payload alert user nowMs rest false
        (results ++ [{ channel := channelType, success := false, deliveryId := none,
                       timestamp := none, error := some "Channel not found" }]) logs
    | some channel =>
      if channel.available = false then
        deliverLoop channels payload alert user nowMs rest false
          (results ++ [{ channel := channelType, success := false, deliveryId := none,
                         timestamp := none, error := some "Channel not available" }]) logs
      else
        match channel.deliver payload with
        | DeliverOutcome.throws msg =>
          deliverLoop channels payload alert user nowMs rest false
            (results ++ [{ channel := channelType, success := false, deliveryId := none,
                           timestamp := none, error := some msg }]) logs
        | DeliverOutcome.ok r =>
          deliverLoop channels payload alert user nowMs rest (overallSuccess && r.success)
            (results ++ [{ channel := channelType, success := r.success,
                           deliveryId := some r.deliveryId, timestamp := some r.timestamp,
                           error := r.error }])
            (logs ++ [logRecord alert user channelType nowMs r])

/- deliverNotification, NotificationManager.ts lines 36-108, over an explicit
   channel registry and deliveryLogs state. Returns the function result
   together with the deliveryLogs array after the call. -/
def deliverNotification (channels : List (String × Channel)) (logs : List DeliveryLog)
    (alert : Alert) (user : User) (channelTypes : List String) (ts : String) (nowMs : Int) :
    (Bool × List ChannelResult) × List DeliveryLog :=
  deliverLoop channels (payloadFor alert user ts) alert user nowMs channelTypes true [] logs

/- The results entry one loop iteration produces for a channel type. -/
def channelOutcome (channels : List (String × Channel)) (payload : NotificationPayload)
    (channelType : String) : ChannelResult :=
  match mapGet channels channelType with
  | none =>
    { channel := channelType, success := false, deliveryId := none,
      timestamp := none, error := some "Channel not found" }
  | some channel =>
    if channel.available = false then
      { channel := channelType, success := false, deliveryId := none,
        timestamp := none, error := some "Channel not available" }
    else
      match channel.deliver payload with
      | DeliverOutcome.throws msg =>
        { channel := channelType, success := false, deliveryId := none,
          timestamp := none, error := some msg }
      | DeliverOutcome.ok r =>
        { channel := channelType, success := r.success, deliveryId := some r.deliveryId,
          timestamp := some r.timestamp, error := r.error }

/- The delivery-log entries one loop iteration appends for a channel type:
   none for a missing, unavailable or throwing channel, one when the deliver
   call returned. -/
def channelLogRecords (channels : List (String × Channel)) (payload : NotificationPayload)
    (alert : Alert) (user : User) (nowMs : Int) (channelType : String) : List DeliveryLog :=
  match mapGet channels channelType with
  | none => []
  | some channel =>
    if channel.available = false then []
    else
      match channel.deliver payload with
      | DeliverOutcome.throws _ => []
      | DeliverOutcome.ok r => [logRecord alert user channelType nowMs r]

/- Whether the deliver call of a requested channel type was made and returned
   without throwing. -/
def attemptReturned (channels : List (String × Channel)) (payload : NotificationPayload)
    (channelType : String) : Bool :=
  match mapGet channels channelType with
  | none => false
  | some channel =>
    channel.available &&
      (match channel.deliver payload with
       | DeliverOutcome.ok _ => true
       | DeliverOutcome.throws _ => false)

end NotificationManager

/- Reminder scheduler, src/src/lib/reminder/ReminderScheduler.ts. The timer
   Map is the reminders field: key alertId_userId, value the fire time the
   timeout was armed for. Observers are modelled by the list of events each
   registered observer has received, in order. A setTimeout whose callback is
   triggerReminder is modelled by the armed entry; a delay <= 0 immediate
   trigger, and the synchronous part of a timeout firing, are returned as
   trigger requests (alert, user) instead of recursing. -/

inductive ReminderEvent where
  | scheduled (alertId userId : String) (scheduledFor : Int)
  | triggered (alertId userId : String) (success : Bool) (timestamp : Int)
  | error (alertId userId : String) (msg : String) (timestamp : Int)
  deriving DecidableEq

structure SchedulerState where
  reminders : List (String × Int)
  observers : List (List ReminderEvent)
  deriving DecidableEq

namespace ReminderScheduler

/- The reminderId of line 32. -/
def reminderKey (alert : Alert) (user : User) : String := alert.id ++ "_" ++ user.id

/- notifyObservers, lines 23-25: every registered observer receives the event. -/
def notifyObservers (observers : List (List ReminderEvent)) (event : ReminderEvent) :
    List (List ReminderEvent) :=
  observers.map (fun received => received ++ [event])

/- The snooze test of lines 86-88: preference?.snoozedUntil is truthy and the
   snoozedUntil instant is strictly after now. -/
def snoozeActive (now : Int) (preference : Option UserAlertPreference) : Bool :=
  match preference with
  | none => false
  | some p =>
    match p.snoozedUntil with
    | none => false
    | some t => decide (t > now)

/- shouldScheduleReminder, lines 67-92. The activity window test is the
   literal one of lines 74-78: not archived, not now < startTime, and not
   now > expiryTime. -/
def shouldScheduleReminder (now : Int) (alert : Alert)
    (preference : Option UserAlertPreference) : Bool :=
  if alert.archived = true ∨ now < alert.startTime ∨ now > alert.expiryTime then false
  else if alert.reminderEnabled = false then false
  else if snoozeActive now preference then false
  else true

/- reminderFrequencyMinutes in milliseconds, line 99. -/
def frequencyMs (alert : Alert) : Int := alert.reminderFrequencyMinutes * 60 * 1000

/- calculateNextReminderTime, lines 94-112: without a preference it returns
   now; with one it returns createdAt + (floor((now - createdAt) / frequency) + 1)
   * frequency. Math.floor of the real quotient is floor division, Int.fdiv. -/
def calculateNextReminderTime (now : Int) (alert : Alert)
    (preference : Option UserAlertPreference) : Int :=
  match preference with
  | none => now
  | some _ =>
    let baseTime := alert.createdAt
    let timeSinceBase := now - baseTime
    let intervalsPassed := Int.fdiv timeSinceBase (frequencyMs alert)
    baseTime + (intervalsPassed + 1) * frequencyMs alert

/- clearReminder, lines 144-150: the presence test followed by delete leaves
   exactly the entries of the other keys. -/
def clearReminder (s : SchedulerState) (reminderId : String) : SchedulerState :=
  { s with reminders := mapDelete s.reminders reminderId }

/- scheduleReminder, lines 27-65, at instant now. Returns the new state and
   the list of synchronous trigger requests: [(alert, user)] exactly when
   delay <= 0 took the immediate branch of lines 46-50. -/
def scheduleReminder (now : Int) (s : SchedulerState) (alert : Alert) (user : User)
    (preference : Option UserAlertPreference) : SchedulerState × List (Alert × User) :=
  let reminderId := reminderKey alert user
  let cleared : SchedulerState := { s with reminders := mapDelete s.reminders reminderId }
  if shouldScheduleReminder now alert preference = false then (cleared, [])
  else
    let nextReminderTime := calculateNextReminderTime now alert preference
    let delay := nextReminderTime - now
    if delay ≤ 0 then (cleared, [(alert, user)])
    else
      ({ reminders := mapSet cleared.reminders reminderId nextReminderTime,
         observers := notifyObservers cleared.observers
           (ReminderEvent.scheduled alert.id user.id nextReminderTime) }, [])

/- triggerReminder, lines 114-142, in the case where deliverNotification
   returns (no exception). It delivers on the deliveryTypes of the alert,
   emits the triggered event, and reschedules by the literal call of line 132,
   this.scheduleReminder(alert, user) - the preference argument is omitted,
   so the rescheduling step runs with preference none whatever the
   preference store holds. Returns the new scheduler state, the deliveryLogs
   array after the dispatch, and the trigger requests of the rescheduling. -/
def triggerReminder (now : Int) (ts : String) (channels : List (String × Channel))
    (logs : List DeliveryLog) (s : SchedulerState) (alert : Alert) (user : User) :
    SchedulerState × List DeliveryLog × List (Alert × User) :=
  let dres := NotificationManager.deliverNotification channels logs alert user
    alert.deliveryTypes ts now
  let event := ReminderEvent.triggered alert.id user.id dres.1.1 now
  let s1 : SchedulerState := { s with observers := notifyObservers s.observers event }
  let res := scheduleReminder now s1 alert user none
  (res.1, dres.2, res.2)

end ReminderScheduler

/- User preference manager, src/src/lib/user-preferences/UserPreferenceManager.ts.
   The state is the preferences Map, keyed alertId_userId. The JS fallbacks
   existing?.field || default coalesce undefined and null; the id and ISO
   timestamp strings stored in these records are nonempty, so for them the
   fallback is exactly the missing-record case modelled by the match. -/

namespace UserPreferenceManager

/- The key of lines 22, 39, 56. -/
def prefKey (alertId userId : String) : String := alertId ++ "_" ++ userId

/- markAsRead, lines 21-36. nowMs stands for Date.now() in the generated id. -/
def markAsRead (nowMs : Int) (prefs : List (String × UserAlertPreference))
    (alertId userId : String) :
    List (String × UserAlertPreference) × UserAlertPreference :=
  let key := prefKey alertId userId
  let existing := mapGet prefs key
  let preference : UserAlertPreference :=
    { id := match existing with | some e => e.id | none => "pref_" ++ toString nowMs
      alertId := alertId
      userId := userId
      read := true
      snoozedUntil := match existing with | some e => e.snoozedUntil | none => none
      lastSnoozedDay := match existing with | some e => e.lastSnoozedDay | none => none }
  (mapSet prefs key preference, preference)

/- markAsUnread, lines 38-53. -/
def markAsUnread (nowMs : Int) (prefs : List (String × UserAlertPreference))
    (alertId userId : String) :
    List (String × UserAlertPreference) × UserAlertPreference :=
  let key := prefKey alertId userId
  let existing := mapGet prefs key
  let preference : UserAlertPreference :=
    { id := match existing with | some e => e.id | none => "pref_" ++ toString nowMs
      alertId := alertId
      userId := userId
      read := false
      snoozedUntil := match existing with | some e => e.snoozedUntil | none => none
      lastSnoozedDay := match existing with | some e => e.lastSnoozedDay | none => none }
  (mapSet prefs key preference, preference)

/- snoozeForDay, lines 55-72. today stands for format(new Date(), yyyy-MM-dd)
   and endOfDayMs for endOfDay(new Date()); existing?.read || false is the
   read bit of the existing record, false when there is none. -/
def snoozeForDay (nowMs : Int) (today : String) (endOfDayMs : Int)
    (prefs : List (String × UserAlertPreference)) (alertId userId : String) :
    List (String × UserAlertPreference) × UserAlertPreference :=
  let key := prefKey alertId userId
  let existing := mapGet prefs key
  let preference : UserAlertPreference :=
    { id := match existing with | some e => e.id | none => "pref_" ++ toString nowMs
      alertId := alertId
      userId := userId
      read := match existing with | some e => e.read | none => false
      snoozedUntil := some endOfDayMs
      lastSnoozedDay := some today }
  (mapSet prefs key preference, preference)

end UserPreferenceManager

/- Analytics engine, the AnalyticsEngine class of src/src/lib/auth.ts.
   The numeric computations of generateAnalytics and the engagementRate of
   generateDetailedAnalytics use exact rationals; Math.round rounds half
   toward positive infinity. -/

/- Math.round. -/
def jsRound (x : ℚ) : Int := ⌊x + 1 / 2⌋

namespace AnalyticsEngine

/- deliveredCount, auth.ts line 62 of the class file: delivery-log entries
   with delivered true. -/
def deliveredCount (deliveryLogs : List DeliveryLog) : Nat :=
  (deliveryLogs.filter (fun log => log.delivered)).length

/- readCount, line 63: preference entries with read true. -/
def readCount (preferences : List UserAlertPreference) : Nat :=
  (preferences.filter (fun p => p.read)).length

/- The engagementRate expression of generateDetailedAnalytics lines 96-98. -/
def engagementRateRaw (deliveryLogs : List DeliveryLog)
    (preferences : List UserAlertPreference) : ℚ :=
  if 0 < deliveredCount deliveryLogs then
    (readCount preferences : ℚ) / (deliveredCount deliveryLogs : ℚ) * 100
  else 0

/- The engagementRate field returned at line 117:
   Math.round(engagementRate * 100) / 100. -/
def detailedEngagementRate (deliveryLogs : List DeliveryLog)
    (preferences : List UserAlertPreference) : ℚ :=
  (jsRound (engagementRateRaw deliveryLogs preferences * 100) : ℚ) / 100

end AnalyticsEngine

/- For the refinement comparison of claim C3 only, the next fire time as the
   spec words it: elapsed = now - createdAt, k = ceil(elapsed / frequency),
   nextFire = createdAt + k * frequency. The ceiling of an integer quotient
   with positive divisor is the negated floor division of the negation. -/
def ceilDivInt (a b : Int) : Int := -(Int.fdiv (-a) b)

def specCeilNextFireTime (now : Int) (alert : Alert) : Int :=
  alert.createdAt +
    ceilDivInt (now - alert.createdAt) (ReminderScheduler.frequencyMs alert) *
      ReminderScheduler.frequencyMs alert

/- Concrete inputs used by per-claim counterexamples and witnesses. -/

def chanOkInApp : Channel :=
  { available := true
    deliver := fun payload => DeliverOutcome.ok
      { success := true, deliveryId := "inapp_1", timestamp := payload.timestamp,
        error := none } }

/- An EmailNotificationChannel built without an email service:
   isAvailable() is false. -/
def chanEmailUnconfigured : Channel :=
  { available := false
    deliver := fun payload => DeliverOutcome.ok
      { success := false, deliveryId := "", timestamp := payload.timestamp,
        error := some "Email service not configured" } }

def alertC1 : Alert :=
  { id := "a1", title := "t1", message := "m1", severity := "Info",
    deliveryTypes := ["inapp"], reminderEnabled := true,
    reminderFrequencyMinutes := 60, startTime := 0, expiryTime := 10000000,
    archived := false, createdAt := 0 }

def userC1 : User := { id := "u1", name := "Alex", teamId := "t1" }

/- The preference state of the store for (a1, u1) at fire time: snoozed until
   instant 7200000, two hours past creation. -/
def prefC1 : UserAlertPreference :=
  { id := "p1", alertId := "a1", userId := "u1", read := false,
    snoozedUntil := some 7200000, lastSnoozedDay := some "2026-10-12" }

def channelsC1 : List (String × Channel) := [("inapp", chanOkInApp)]

def alertC2 : Alert :=
  { id := "a2", title := "t2", message := "m2", severity := "Warning",
    deliveryTypes := ["inapp", "email"], reminderEnabled := true,
    reminderFrequencyMinutes := 120, startTime := 0, expiryTime := 10000000,
    archived := false, createdAt := 0 }

def userC2 : User := { id := "u2", name := "Sarah", teamId := "t1" }

def channelsC2 : List (String × Channel) :=
  [("inapp", chanOkInApp), ("email", chanEmailUnconfigured)]

def alertC3 : Alert :=
  { id := "a3", title := "t3", message := "m3", severity := "Info",
    deliveryTypes := ["inapp"], reminderEnabled := true,
    reminderFrequencyMinutes := 1, startTime := 0, expiryTime := 10000000,
    archived := false, createdAt := 0 }

def prefC3 : UserAlertPreference :=
  { id := "p3", alertId := "a3", userId := "u3", read := false,
    snoozedUntil := none, lastSnoozedDay := none }

def alertC4 : Alert :=
  { id := "a4", title := "t4", message := "m4", severity := "Info",
    deliveryTypes := ["inapp"], reminderEnabled := true,
    reminderFrequencyMinutes := 1, startTime := 0, expiryTime := 10000000,
    archived := false, createdAt := 0 }

def userC4 : User := { id := "u4", name := "Mike", teamId := "t1" }

def prefC4 : UserAlertPreference :=
  { id := "p4", alertId := "a4", userId := "u4", read := false,
    snoozedUntil := none, lastSnoozedDay := none }

def alertC5 : Alert :=
  { id := "a5", title := "t5", message := "m5", severity := "Info",
    deliveryTypes := ["inapp"], reminderEnabled := true,
    reminderFrequencyMinutes := 1, startTime := 0, expiryTime := 100,
    archived := false, createdAt := 0 }

def userC5 : User := { id := "u5", name := "Emma", teamId := "t2" }

/- An archived alert, for the C5 witness. -/
def alertC5Archived : Alert :=
  { id := "a5b", title := "t5b", message := "m5b", severity := "Info",
    deliveryTypes := ["inapp"], reminderEnabled := true,
    reminderFrequencyMinutes := 1, startTime := 0, expiryTime := 100,
    archived := true, createdAt := 0 }

def alertC8 : Alert :=
  { id := "a8", title := "t8", message := "m8", severity := "Critical",
    deliveryTypes := ["inapp"], reminderEnabled := true,
    reminderFrequencyMinutes := 1, startTime := 0, expiryTime := 1000,
    archived := false, createdAt := 0 }

def userC8 : User := { id := "u8", name := "James", teamId := "t2" }

/- A preference for the C8 witness: with it supplied, the computed fire time
   at now = 50 is 60000, in the future, so a timer is armed. -/
def prefC8 : UserAlertPreference :=
  { id := "p8", alertId := "a8", userId := "u8", read := false,
    snoozedUntil := none, lastSnoozedDay := none }

def logC9 (n : String) : DeliveryLog :=
  { id := n, alertId := "a9", userId := "u9", channel := "inapp",
    delivered := true, deliveredAt := "ts", error := none }

def logsC9 : List DeliveryLog := [logC9 "d1", logC9 "d2", logC9 "d3"]

def logsC9pair : List DeliveryLog := [logC9 "d1", logC9 "d2"]

def prefsC9 : List UserAlertPreference :=
  [{ id := "p9", alertId := "a9", userId := "u9", read := true,
     snoozedUntil := none, lastSnoozedDay := none }]

/- Association-list map lemmas shared by the scheduler and preference
   theorems. -/

theorem mapGet_mapSet_self {A : Type} (m : List (String × A)) (key : String) (v : A) :
    mapGet (mapSet m key v) key = some v := by
  induction m with
  | nil => simp [mapSet, mapGet]
  | cons e rest ih =>
    obtain ⟨k, w⟩ := e
    by_cases h : k = key
    · simp [mapSet, h, mapGet]
    · simp [mapSet, h, mapGet, ih]

theorem mem_keys_mapSet {A : Type} (m : List (String × A)) (key : String) (v : A)
    (x : String) (h : x ∈ (mapSet m key v).map Prod.fst) :
    x = key ∨ x ∈ m.map Prod.fst := by
  induction m with
  | nil =>
    simp [mapSet] at h
    exact Or.inl h
  | cons e rest ih =>
    obtain ⟨k, w⟩ := e
    by_cases hk : k = key
    · simp [mapSet, hk] at h
      rcases h with h | h
      · exact Or.inl h
      · exact Or.inr (by simp [h])
    · simp [mapSet, hk] at h
      rcases h with h | h
      · exact Or.inr (by simp [h])
      · rcases ih (by simpa using h) with h2 | h2
        · exact Or.inl h2
        · exact Or.inr (by simp [h2])

theorem mem_keys_mapDelete {A : Type} (m : List (String × A)) (key : String)
    (x : String) (h : x ∈ (mapDelete m key).map Prod.fst) :
    x ∈ m.map Prod.fst := by
  induction m with
  | nil => simp [mapDelete] at h
  | cons e rest ih =>
    obtain ⟨k, w⟩ := e
    by_cases hk : k = key
    · simp [mapDelete, hk] at h
      simp [h]
    · simp [mapDelete, hk] at h
      rcases h with h | h
      · simp [h]
      · simp [ih (by simpa using h)]

theorem nodup_keys_mapSet {A : Type} (m : List (String × A)) (key : String) (v : A)
    (h : (m.map Prod.fst).Nodup) : ((mapSet m key v).map Prod.fst).Nodup := by
  induction m with
  | nil => simp [mapSet]
  | cons e rest ih =>
    obtain ⟨k, w⟩ := e
    simp only [List.map_cons, List.nodup_cons] at h
    by_cases hk : k = key
    · simp only [mapSet, hk, if_true, List.map_cons, List.nodup_cons]
      exact ⟨hk ▸ h.1, h.2⟩
    · simp only [mapSet, hk, if_false, List.map_cons, List.nodup_cons]
      refine ⟨fun hmem => ?_, ih h.2⟩
      rcases mem_keys_mapSet rest key v k hmem with h2 | h2
      · exact hk h2
      · exact h.1 h2

theorem nodup_keys_mapDelete {A : Type} (m : List (String × A)) (key : String)
    (h : (m.map Prod.fst).Nodup) : ((mapDelete m key).map Prod.fst).Nodup := by
  induction m with
  | nil => simp [mapDelete]
  | cons e rest ih =>
    obtain ⟨k, w⟩ := e
    simp only [List.map_cons, List.nodup_cons] at h
    by_cases hk : k = key
    · simpa [mapDelete, hk] using h.2
    · simp only [mapDelete, hk, if_false, List.map_cons, List.nodup_cons]
      exact ⟨fun hmem => h.1 (mem_keys_mapDelete rest key k hmem), ih h.2⟩

theorem countKey_eq_zero_of_not_mem {A : Type} (m : List (String × A)) (key : String)
    (h : key ∉ m.map Prod.fst) : countKey m key = 0 := by
  induction m with
  | nil => rfl
  | cons e rest ih =>
    obtain ⟨k, w⟩ := e
    simp only [List.map_cons, List.mem_cons] at h
    push_neg at h
    have hk : (k == key) = false := by
      simp [beq_iff_eq]
      exact fun hkk => h.1 hkk.symm
    simp only [countKey, List.filter_cons, hk]
    exact ih h.2

theorem countKey_le_one_of_nodup {A : Type} (m : List (String × A)) (key : String)
    (h : (m.map Prod.fst).Nodup) : countKey m key ≤ 1 := by
  induction m with
  | nil => simp [countKey]
  | cons e rest ih =>
    obtain ⟨k, w⟩ := e
    simp only [List.map_cons, List.nodup_cons] at h
    by_cases hk : k = key
    · have hz : countKey rest key = 0 :=
        countKey_eq_zero_of_not_mem rest key (hk ▸ h.1)
      simp only [countKey, List.filter_cons, beq_iff_eq, hk]
      simp only [countKey] at hz
      simp [hz]
    · have hkb : (k == key) = false := by simp [beq_iff_eq, hk]
      simp only [countKey, List.filter_cons, hkb]
      exact ih h.2

/- Dispatcher lemmas. -/

theorem channelOutcome_channel (channels : List (String × Channel))
    (payload : NotificationPayload) (channelType : String) :
    (NotificationManager.channelOutcome channels payload channelType).channel = channelType := by
  unfold NotificationManager.channelOutcome
  cases mapGet channels channelType with
  | none => rfl
  | some channel =>
    by_cases h : channel.available = false
    · simp [h]
    · simp only [h, if_false]
      cases channel.deliver payload <;> rfl

theorem channelLogRecords_length (channels : List (String × Channel))
    (payload : NotificationPayload) (alert : Alert) (user : User) (nowMs : Int)
    (channelType : String) :
    (NotificationManager.channelLogRecords channels payload alert user nowMs channelType).length =
      (if NotificationManager.attemptReturned channels payload channelType then 1 else 0) := by
  unfold NotificationManager.channelLogRecords NotificationManager.attemptReturned
  cases mapGet channels channelType with
  | none => rfl
  | some channel =>
    by_cases h : channel.available = false
    · simp [h]
    · have ht : channel.available = true := by
        revert h; cases channel.available <;> simp
      simp only [h, if_false, ht, Bool.true_and]
      cases channel.deliver payload <;> simp

/- The dispatch loop in one equation: it conjoins the per-channel successes
   onto the incoming flag, appends the per-channel results entries in request
   order, and appends the per-channel log records. -/
theorem deliverLoop_eq (channels : List (String × Channel)) (payload : NotificationPayload)
    (alert : Alert) (user : User) (nowMs : Int) :
    ∀ (types : List String) (overallSuccess : Bool) (results : List ChannelResult)
      (logs : List DeliveryLog),
    NotificationManager.deliverLoop channels payload alert user nowMs types overallSuccess results logs =
      ((overallSuccess &&
          (types.map (NotificationManager.channelOutcome channels payload)).all (fun r => r.success),
        results ++ types.map (NotificationManager.channelOutcome channels payload)),
       logs ++ (types.map
         (NotificationManager.channelLogRecords channels payload alert user nowMs)).flatten) := by
  intro types
  induction types with
  | nil =>
    intro overallSuccess results logs
    simp [NotificationManager.deliverLoop]
  | cons channelType rest ih =>
    intro overallSuccess results logs
    simp only [NotificationManager.deliverLoop]
    cases hm : mapGet channels channelType with
    | none =>
      simp [ih, NotificationManager.channelOutcome, NotificationManager.channelLogRecords, hm]
    | some channel =>
      by_cases hav : channel.available = false
      · simp only [hav, if_true]
        simp [ih, NotificationManager.channelOutcome, NotificationManager.channelLogRecords, hm, hav]
      · simp only [hav, if_false]
        cases hd : channel.deliver payload with
        | throws msg =>
          simp [ih, NotificationManager.channelOutcome, NotificationManager.channelLogRecords,
            hm, hav, hd]
        | ok r =>
          simp [ih, NotificationManager.channelOutcome, NotificationManager.channelLogRecords,
            hm, hav, hd, Bool.and_assoc]

theorem map_channel_of_outcomes (channels : List (String × Channel))
    (payload : NotificationPayload) :
    ∀ types : List String,
    (types.map (NotificationManager.channelOutcome channels payload)).map (fun r => r.channel) =
      types := by
  intro types
  induction types with
  | nil => rfl
  | cons t rest ih => simp [channelOutcome_channel, ih]

/- Scheduler lemmas. -/

theorem scheduleReminder_keys_nodup (now : Int) (s : SchedulerState) (alert : Alert)
    (user : User) (preference : Option UserAlertPreference)
    (h : (s.reminders.map Prod.fst).Nodup) :
    (((ReminderScheduler.scheduleReminder now s alert user preference).1.reminders).map
      Prod.fst).Nodup := by
  unfold ReminderScheduler.scheduleReminder
  by_cases h1 : ReminderScheduler.shouldScheduleReminder now alert preference = false
  · simpa [h1] using nodup_keys_mapDelete s.reminders _ h
  · by_cases h2 :
      ReminderScheduler.calculateNextReminderTime now alert preference - now ≤ 0
    · simpa [h1, h2] using nodup_keys_mapDelete s.reminders _ h
    · simpa [h1, h2] using
        nodup_keys_mapSet _ _ _ (nodup_keys_mapDelete s.reminders _ h)

/-- C4: in every scheduler state whose timer map has no duplicate keys,
scheduleReminder preserves the no-duplicate invariant, every key holds at
most one live timer after the call, and two successive calls for the same
key likewise leave at most one live timer for that key, because the call
first cancels any existing timer for the key (lines 35 and 144-150). -/
theorem C4_at_most_one_live_timer (now now2 : Int) (s : SchedulerState) (alert : Alert)
    (user : User) (pref pref2 : Option UserAlertPreference)
    (h : (s.reminders.map Prod.fst).Nodup) :
    (((ReminderScheduler.scheduleReminder now s alert user pref).1.reminders).map
      Prod.fst).Nodup ∧
    (∀ key, countKey (ReminderScheduler.scheduleReminder now s alert user pref).1.reminders
      key ≤ 1) ∧
    (∀ key, countKey (ReminderScheduler.scheduleReminder now2
      (ReminderScheduler.scheduleReminder now s alert user pref).1
        alert user pref2).1.reminders key ≤ 1) := by
  have h1 := scheduleReminder_keys_nodup now s alert user pref h
  have h2 := scheduleReminder_keys_nodup now2 _ alert user pref2 h1
  exact ⟨h1, fun key => countKey_le_one_of_nodup _ key h1,
    fun key => countKey_le_one_of_nodup _ key h2⟩

/-- Witness for C4 at a concrete state holding one timer under another key. -/
theorem C4_at_most_one_live_timer_witness :
    (((⟨[("z", 5)], []⟩ : SchedulerState).reminders.map Prod.fst).Nodup) ∧
    ((((ReminderScheduler.scheduleReminder 10 ⟨[("z", 5)], []⟩ alertC4 userC4
      (some prefC4)).1.reminders).map Prod.fst).Nodup ∧
    (∀ key, countKey (ReminderScheduler.scheduleReminder 10 ⟨[("z", 5)], []⟩ alertC4 userC4
      (some prefC4)).1.reminders key ≤ 1) ∧
    (∀ key, countKey (ReminderScheduler.scheduleReminder 20
      (ReminderScheduler.scheduleReminder 10 ⟨[("z", 5)], []⟩ alertC4 userC4
        (some prefC4)).1 alertC4 userC4 none).1.reminders key ≤ 1)) :=
  ⟨by decide, C4_at_most_one_live_timer 10 20 ⟨[("z", 5)], []⟩ alertC4 userC4
    (some prefC4) none (by decide)⟩

/-- C5 (amended): scheduleReminder arms no timer, requests no delivery and
emits no event whenever the alert is archived, now lies outside the CLOSED
interval from startTime to expiryTime, reminders are disabled, or the
supplied preference has snoozedUntil strictly after now; the code gate of
lines 74-78 tests now > expiryTime, so now equal to expiryTime is still
eligible, against the half-open interval the claim states. Once every check
passes, in particular once snoozedUntil is not after now, the call schedules
normally: it fires at once or arms a timer for the computed fire time. -/
theorem C5_eligibility_gate (now : Int) (s : SchedulerState) (alert : Alert) (user : User)
    (pref : Option UserAlertPreference) :
    (alert.archived = true ∨ now < alert.startTime ∨ alert.expiryTime < now ∨
        alert.reminderEnabled = false ∨
        (∃ p t, pref = some p ∧ p.snoozedUntil = some t ∧ now < t) →
      ReminderScheduler.scheduleReminder now s alert user pref =
        (ReminderScheduler.clearReminder s (ReminderScheduler.reminderKey alert user), [])) ∧
    (alert.archived = false → alert.startTime ≤ now → now ≤ alert.expiryTime →
      alert.reminderEnabled = true →
      (∀ p t, pref = some p → p.snoozedUntil = some t → t ≤ now) →
      ReminderScheduler.shouldScheduleReminder now alert pref = true ∧
      ((ReminderScheduler.scheduleReminder now s alert user pref).2 = [(alert, user)] ∨
        mapGet (ReminderScheduler.scheduleReminder now s alert user pref).1.reminders
          (ReminderScheduler.reminderKey alert user) =
          some (ReminderScheduler.calculateNextReminderTime now alert pref))) := by
  constructor
  · intro hbad
    have hs : ReminderScheduler.shouldScheduleReminder now alert pref = false := by
      rcases hbad with h | h | h | h | ⟨p, t, hp, ht, hlt⟩
      · simp [ReminderScheduler.shouldScheduleReminder, h]
      · simp [ReminderScheduler.shouldScheduleReminder, h]
      · simp [ReminderScheduler.shouldScheduleReminder, h]
      · simp [ReminderScheduler.shouldScheduleReminder, h]
      · subst hp
        simp [ReminderScheduler.shouldScheduleReminder, ReminderScheduler.snoozeActive,
          ht, hlt]
    simp [ReminderScheduler.scheduleReminder, hs, ReminderScheduler.clearReminder]
  · intro h1 h2 h3 h4 h5
    have hc1 : ¬(alert.archived = true ∨ now < alert.startTime ∨ now > alert.expiryTime) := by
      push_neg
      exact ⟨by simp [h1], h2, h3⟩
    have hsa : ReminderScheduler.snoozeActive now pref = false := by
      unfold ReminderScheduler.snoozeActive
      cases pref with
      | none => rfl
      | some p =>
        cases hsn : p.snoozedUntil with
        | none => simp [hsn]
        | some t =>
          have hle := h5 p t rfl hsn
          simp [hsn]
          omega
    have hs : ReminderScheduler.shouldScheduleReminder now alert pref = true := by
      unfold ReminderScheduler.shouldScheduleReminder
      rw [if_neg hc1, if_neg (by simp [h4]), hsa]
      rfl
    refine ⟨hs, ?_⟩
    by_cases hdel : ReminderScheduler.calculateNextReminderTime now alert pref - now ≤ 0
    · left
      simp [ReminderScheduler.scheduleReminder, hs, hdel]
    · right
      simp [ReminderScheduler.scheduleReminder, hs, hdel, mapGet_mapSet_self]

/-- C5 counterexample: at now equal to expiryTime the claim says nothing may
be scheduled or delivered, but the eligibility gate passes and the call
requests an immediate delivery for the key. -/
theorem C5_counterexample :
    alertC5.expiryTime = 100 ∧
    ReminderScheduler.shouldScheduleReminder 100 alertC5 none = true ∧
    (ReminderScheduler.scheduleReminder 100 ⟨[], []⟩ alertC5 userC5 none).2 =
      [(alertC5, userC5)] := by
  decide

/-- Witness for C5 on an archived alert: the call only clears the key. -/
theorem C5_eligibility_gate_witness :
    ReminderScheduler.scheduleReminder 50 ⟨[], []⟩ alertC5Archived userC5 none =
      (ReminderScheduler.clearReminder ⟨[], []⟩
        (ReminderScheduler.reminderKey alertC5Archived userC5), []) :=
  (C5_eligibility_gate 50 ⟨[], []⟩ alertC5Archived userC5 none).1 (Or.inl rfl)

/-- C8 (amended): an eligible scheduleReminder call emits the scheduled event,
with the computed fire time, to every registered observer exactly when a
timer is armed for a future fire time; on the synchronous-fire path of lines
46-50 the function returns before the notifyObservers call of lines 59-64,
so no scheduled event is emitted there, against the claim. -/
theorem C8_scheduled_event_only_when_armed (now : Int) (s : SchedulerState) (alert : Alert)
    (user : User) (pref : Option UserAlertPreference)
    (h : ReminderScheduler.shouldScheduleReminder now alert pref = true) :
    (now < ReminderScheduler.calculateNextReminderTime now alert pref →
      (ReminderScheduler.scheduleReminder now s alert user pref).1.observers =
        ReminderScheduler.notifyObservers s.observers
          (ReminderEvent.scheduled alert.id user.id
            (ReminderScheduler.calculateNextReminderTime now alert pref)) ∧
      (ReminderScheduler.scheduleReminder now s alert user pref).2 = []) ∧
    (ReminderScheduler.calculateNextReminderTime now alert pref ≤ now →
      (ReminderScheduler.scheduleReminder now s alert user pref).1.observers =
        s.observers ∧
      (ReminderScheduler.scheduleReminder now s alert user pref).2 = [(alert, user)]) := by
  constructor
  · intro hlt
    have hd : ¬(ReminderScheduler.calculateNextReminderTime now alert pref - now ≤ 0) := by
      omega
    constructor <;> simp [ReminderScheduler.scheduleReminder, h, hd]
  · intro hle
    have hd : ReminderScheduler.calculateNextReminderTime now alert pref - now ≤ 0 := by
      omega
    constructor <;> simp [ReminderScheduler.scheduleReminder, h, hd]

/-- C8 counterexample: an eligible call with no preference computes fire time
now, fires synchronously, and the one registered observer receives no
scheduled event at all, though the claim demands one in this case too. -/
theorem C8_counterexample :
    ReminderScheduler.shouldScheduleReminder 50 alertC8 none = true ∧
    ReminderScheduler.scheduleReminder 50 ⟨[], [[]]⟩ alertC8 userC8 none =
      (⟨[], [[]]⟩, [(alertC8, userC8)]) := by
  decide

/-- Witness for C8 on an eligible call whose computed fire time 60000 is in
the future of now = 50: the timer is armed and the observer is notified. -/
theorem C8_scheduled_event_only_when_armed_witness :
    ReminderScheduler.shouldScheduleReminder 50 alertC8 (some prefC8) = true ∧
    (((50 : Int) < ReminderScheduler.calculateNextReminderTime 50 alertC8 (some prefC8) →
      (ReminderScheduler.scheduleReminder 50 ⟨[], [[]]⟩ alertC8 userC8 (some prefC8)).1.observers =
        ReminderScheduler.notifyObservers (⟨[], [[]]⟩ : SchedulerState).observers
          (ReminderEvent.scheduled alertC8.id userC8.id
            (ReminderScheduler.calculateNextReminderTime 50 alertC8 (some prefC8))) ∧
      (ReminderScheduler.scheduleReminder 50 ⟨[], [[]]⟩ alertC8 userC8 (some prefC8)).2 = []) ∧
    (ReminderScheduler.calculateNextReminderTime 50 alertC8 (some prefC8) ≤ 50 →
      (ReminderScheduler.scheduleReminder 50 ⟨[], [[]]⟩ alertC8 userC8 (some prefC8)).1.observers =
        (⟨[], [[]]⟩ : SchedulerState).observers ∧
      (ReminderScheduler.scheduleReminder 50 ⟨[], [[]]⟩ alertC8 userC8 (some prefC8)).2 =
        [(alertC8, userC8)])) :=
  ⟨by decide, C8_scheduled_event_only_when_armed 50 ⟨[], [[]]⟩ alertC8 userC8 (some prefC8)
    (by decide)⟩

/-- C1: the code does not honor the claim. At fire instant 3600000 the store
preference for the key is snoozed until 7200000; had scheduleReminder been
given it, nothing would be armed or delivered. But triggerReminder
reschedules through the call of line 132, scheduleReminder(alert, user),
omitting the preference, so the rescheduling step requests an immediate new
trigger and delivery for the key continues during the snooze. -/
theorem C1_reschedule_ignores_snooze :
    (3600000 : Int) < 7200000 ∧
    prefC1.snoozedUntil = some 7200000 ∧
    ReminderScheduler.scheduleReminder 3600000 ⟨[], []⟩ alertC1 userC1 (some prefC1) =
      (⟨[], []⟩, []) ∧
    (ReminderScheduler.triggerReminder 3600000 "ts" channelsC1 [] ⟨[], []⟩
      alertC1 userC1).2.2 = [(alertC1, userC1)] ∧
    (ReminderScheduler.triggerReminder 3600000 "ts" channelsC1 [] ⟨[], []⟩
      alertC1 userC1).2.1 ≠ [] := by
  decide

/-- C3 counterexample: with creation time 0, frequency one minute and now
exactly one frequency after creation, the ceiling formula of the claim gives
60000 = now itself, but the code computes floor + 1 and returns 120000. -/
theorem C3_counterexample :
    ReminderScheduler.calculateNextReminderTime 60000 alertC3 (some prefC3) = 120000 ∧
    specCeilNextFireTime 60000 alertC3 = 60000 ∧
    ReminderScheduler.calculateNextReminderTime 60000 alertC3 (some prefC3) ≠
      specCeilNextFireTime 60000 alertC3 := by
  decide

/-- C3 (amended): with a preference supplied the computed fire time equals
createdAt + k * frequency for k = floor((now - createdAt) / frequency) + 1,
not k = ceil((now - createdAt) / frequency); this k makes the fire time the
SMALLEST grid point createdAt + m * frequency strictly after now, and the
value depends on the preference argument not at all, hence on no
last-delivery time. -/
theorem C3_grid_floor_plus_one (now : Int) (alert : Alert) (p : UserAlertPreference)
    (hF : 0 < ReminderScheduler.frequencyMs alert) :
    ReminderScheduler.calculateNextReminderTime now alert (some p) =
      alert.createdAt +
        (Int.fdiv (now - alert.createdAt) (ReminderScheduler.frequencyMs alert) + 1) *
          ReminderScheduler.frequencyMs alert ∧
    now < ReminderScheduler.calculateNextReminderTime now alert (some p) ∧
    (∀ m : Int, now < alert.createdAt + m * ReminderScheduler.frequencyMs alert →
      ReminderScheduler.calculateNextReminderTime now alert (some p) ≤
        alert.createdAt + m * ReminderScheduler.frequencyMs alert) ∧
    (∀ q : UserAlertPreference,
      ReminderScheduler.calculateNextReminderTime now alert (some q) =
        ReminderScheduler.calculateNextReminderTime now alert (some p)) := by
  have hfd : Int.fdiv (now - alert.createdAt) (ReminderScheduler.frequencyMs alert) =
      (now - alert.createdAt) / ReminderScheduler.frequencyMs alert :=
    Int.fdiv_eq_ediv _ (le_of_lt hF)
  have hcalc : ReminderScheduler.calculateNextReminderTime now alert (some p) =
      alert.createdAt +
        ((now - alert.createdAt) / ReminderScheduler.frequencyMs alert + 1) *
          ReminderScheduler.frequencyMs alert := by
    simp [ReminderScheduler.calculateNextReminderTime, hfd]
  have hqr : ReminderScheduler.frequencyMs alert *
      ((now - alert.createdAt) / ReminderScheduler.frequencyMs alert) +
      (now - alert.createdAt) % ReminderScheduler.frequencyMs alert =
      now - alert.createdAt :=
    Int.ediv_add_emod _ _
  have hr0 : 0 ≤ (now - alert.createdAt) % ReminderScheduler.frequencyMs alert :=
    Int.emod_nonneg _ (ne_of_gt hF)
  have hrF : (now - alert.createdAt) % ReminderScheduler.frequencyMs alert <
      ReminderScheduler.frequencyMs alert :=
    Int.emod_lt_of_pos _ hF
  have hqF : ((now - alert.createdAt) / ReminderScheduler.frequencyMs alert) *
      ReminderScheduler.frequencyMs alert =
      (now - alert.createdAt) -
        (now - alert.createdAt) % ReminderScheduler.frequencyMs alert := by
    rw [mul_comm]
    linarith [hqr]
  refine ⟨by rw [hcalc, hfd], ?_, ?_, fun q => rfl⟩
  · rw [hcalc, add_mul, one_mul, hqF]
    linarith [hrF]
  · intro m hm
    rw [hcalc]
    have hlt : now - alert.createdAt < m * ReminderScheduler.frequencyMs alert := by
      linarith [hm]
    have hq : (now - alert.createdAt) / ReminderScheduler.frequencyMs alert < m := by
      have hmul : ((now - alert.createdAt) / ReminderScheduler.frequencyMs alert) *
          ReminderScheduler.frequencyMs alert < m * ReminderScheduler.frequencyMs alert := by
        rw [hqF]
        linarith [hr0]
      exact lt_of_mul_lt_mul_right hmul (le_of_lt hF)
    have hle : ((now - alert.createdAt) / ReminderScheduler.frequencyMs alert + 1) *
        ReminderScheduler.frequencyMs alert ≤ m * ReminderScheduler.frequencyMs alert :=
      mul_le_mul_of_nonneg_right (by omega) (le_of_lt hF)
    linarith [hle]

/-- Witness for C3 at now 90000, one and a half minutes after creation: the
computed fire time is the grid point 120000. -/
theorem C3_grid_floor_plus_one_witness :
    0 < ReminderScheduler.frequencyMs alertC3 ∧
    (ReminderScheduler.calculateNextReminderTime 90000 alertC3 (some prefC3) =
      alertC3.createdAt +
        (Int.fdiv ((90000 : Int) - alertC3.createdAt) (ReminderScheduler.frequencyMs alertC3) + 1) *
          ReminderScheduler.frequencyMs alertC3 ∧
    (90000 : Int) < ReminderScheduler.calculateNextReminderTime 90000 alertC3 (some prefC3) ∧
    (∀ m : Int, (90000 : Int) < alertC3.createdAt + m * ReminderScheduler.frequencyMs alertC3 →
      ReminderScheduler.calculateNextReminderTime 90000 alertC3 (some prefC3) ≤
        alertC3.createdAt + m * ReminderScheduler.frequencyMs alertC3) ∧
    (∀ q : UserAlertPreference,
      ReminderScheduler.calculateNextReminderTime 90000 alertC3 (some q) =
        ReminderScheduler.calculateNextReminderTime 90000 alertC3 (some prefC3))) :=
  ⟨by decide, C3_grid_floor_plus_one 90000 alertC3 prefC3 (by decide)⟩

/-- C2 (amended): deliverNotification appends its new delivery-log records
after the existing log, never removing or mutating a previous record, and it
appends exactly one record per requested channel type whose deliver call was
made and returned; a channel that is missing, unavailable, or throws yields
a per-channel result entry but NO log record, against the claim. -/
theorem C2_log_append_per_returned_attempt (channels : List (String × Channel))
    (logs : List DeliveryLog) (alert : Alert) (user : User) (channelTypes : List String)
    (ts : String) (nowMs : Int) :
    (NotificationManager.deliverNotification channels logs alert user channelTypes ts nowMs).2 =
      logs ++ (channelTypes.map (NotificationManager.channelLogRecords channels
        (NotificationManager.payloadFor alert user ts) alert user nowMs)).flatten ∧
    ((channelTypes.map (NotificationManager.channelLogRecords channels
        (NotificationManager.payloadFor alert user ts) alert user nowMs)).flatten).length =
      (channelTypes.filter (fun t => NotificationManager.attemptReturned channels
        (NotificationManager.payloadFor alert user ts) t)).length := by
  constructor
  · rw [NotificationManager.deliverNotification, deliverLoop_eq]
  · induction channelTypes with
    | nil => rfl
    | cons t rest ih =>
      simp only [List.map_cons, List.flatten_cons, List.length_append, List.filter_cons]
      rw [channelLogRecords_length, ih]
      cases h : NotificationManager.attemptReturned channels
          (NotificationManager.payloadFor alert user ts) t with
      | false => simp [h]
      | true =>
        simp [h]
        omega

/-- C2 counterexample: requesting inapp and an unavailable email channel
appends ONE log record, for inapp only, not one per requested channel type;
the results array still reports both channels and success is false. -/
theorem C2_counterexample :
    (NotificationManager.deliverNotification channelsC2 [] alertC2 userC2
      ["inapp", "email"] "ts" 0).1.1 = false ∧
    ((NotificationManager.deliverNotification channelsC2 [] alertC2 userC2
      ["inapp", "email"] "ts" 0).1.2).map (fun r => r.channel) = ["inapp", "email"] ∧
    (NotificationManager.deliverNotification channelsC2 [] alertC2 userC2
      ["inapp", "email"] "ts" 0).2.length = 1 ∧
    ¬((NotificationManager.deliverNotification channelsC2 [] alertC2 userC2
      ["inapp", "email"] "ts" 0).2.length = 2) := by
  decide

/-- C6: the returned success flag is the AND of the per-channel attempt
successes over the requested channel types in order: every requested type,
including a missing, unavailable, failing or throwing channel, yields
exactly one per-channel result entry in request order, so one bad channel
neither aborts the remaining deliveries nor throws out of the call. -/
theorem C6_success_is_and_over_channels (channels : List (String × Channel))
    (logs : List DeliveryLog) (alert : Alert) (user : User) (channelTypes : List String)
    (ts : String) (nowMs : Int) :
    (NotificationManager.deliverNotification channels logs alert user channelTypes ts
      nowMs).1.1 =
      ((NotificationManager.deliverNotification channels logs alert user channelTypes ts
        nowMs).1.2).all (fun r => r.success) ∧
    ((NotificationManager.deliverNotification channels logs alert user channelTypes ts
      nowMs).1.2).map (fun r => r.channel) = channelTypes := by
  rw [NotificationManager.deliverNotification, deliverLoop_eq]
  constructor
  · simp
  · simpa [List.map_map] using map_channel_of_outcomes channels
      (NotificationManager.payloadFor alert user ts) channelTypes

/-- C10: with an empty channelTypes list the dispatch loop never runs: the
call returns success true with empty results and leaves the log unchanged. -/
theorem C10_empty_channel_list (channels : List (String × Channel)) (logs : List DeliveryLog)
    (alert : Alert) (user : User) (ts : String) (nowMs : Int) :
    NotificationManager.deliverNotification channels logs alert user [] ts nowMs =
      ((true, []), logs) := rfl

/-- C7: markAsRead and markAsUnread write back a record whose snoozedUntil
and lastSnoozedDay are those of the prior record for the key, none for a
fresh one, and snoozeForDay writes back a record whose read bit is that of
the prior record, false for a fresh one; the written record is exactly what
the store then holds under the key, so the read axis and the snooze axis
never affect one another. -/
theorem C7_read_snooze_independent (nowMs : Int) (today : String) (endOfDayMs : Int)
    (prefs : List (String × UserAlertPreference)) (alertId userId : String) :
    ((UserPreferenceManager.markAsRead nowMs prefs alertId userId).2.read = true ∧
     (UserPreferenceManager.markAsRead nowMs prefs alertId userId).2.snoozedUntil =
       Option.bind (mapGet prefs (UserPreferenceManager.prefKey alertId userId))
         (fun e => e.snoozedUntil) ∧
     (UserPreferenceManager.markAsRead nowMs prefs alertId userId).2.lastSnoozedDay =
       Option.bind (mapGet prefs (UserPreferenceManager.prefKey alertId userId))
         (fun e => e.lastSnoozedDay)) ∧
    ((UserPreferenceManager.markAsUnread nowMs prefs alertId userId).2.read = false ∧
     (UserPreferenceManager.markAsUnread nowMs prefs alertId userId).2.snoozedUntil =
       Option.bind (mapGet prefs (UserPreferenceManager.prefKey alertId userId))
         (fun e => e.snoozedUntil) ∧
     (UserPreferenceManager.markAsUnread nowMs prefs alertId userId).2.lastSnoozedDay =
       Option.bind (mapGet prefs (UserPreferenceManager.prefKey alertId userId))
         (fun e => e.lastSnoozedDay)) ∧
    ((UserPreferenceManager.snoozeForDay nowMs today endOfDayMs prefs alertId
      userId).2.read =
       ((mapGet prefs (UserPreferenceManager.prefKey alertId userId)).map
         (fun e => e.read)).getD false ∧
     (UserPreferenceManager.snoozeForDay nowMs today endOfDayMs prefs alertId
      userId).2.snoozedUntil = some endOfDayMs) ∧
    (mapGet (UserPreferenceManager.markAsRead nowMs prefs alertId userId).1
       (UserPreferenceManager.prefKey alertId userId) =
       some (UserPreferenceManager.markAsRead nowMs prefs alertId userId).2 ∧
     mapGet (UserPreferenceManager.markAsUnread nowMs prefs alertId userId).1
       (UserPreferenceManager.prefKey alertId userId) =
       some (UserPreferenceManager.markAsUnread nowMs prefs alertId userId).2 ∧
     mapGet (UserPreferenceManager.snoozeForDay nowMs today endOfDayMs prefs alertId
       userId).1 (UserPreferenceManager.prefKey alertId userId) =
       some (UserPreferenceManager.snoozeForDay nowMs today endOfDayMs prefs alertId
         userId).2) := by
  cases hm : mapGet prefs (UserPreferenceManager.prefKey alertId userId) with
  | none =>
    simp [UserPreferenceManager.markAsRead, UserPreferenceManager.markAsUnread,
      UserPreferenceManager.snoozeForDay, hm, mapGet_mapSet_self]
  | some e =>
    simp [UserPreferenceManager.markAsRead, UserPreferenceManager.markAsUnread,
      UserPreferenceManager.snoozeForDay, hm, mapGet_mapSet_self]

/-- C9 counterexample: with three delivered log entries and one read
preference the code returns 33.33, the two-decimal rounding of 100/3, not
readCount / deliveredCount * 100 = 100/3 itself as the claim states. -/
theorem C9_counterexample :
    AnalyticsEngine.deliveredCount logsC9 = 3 ∧
    AnalyticsEngine.readCount prefsC9 = 1 ∧
    AnalyticsEngine.detailedEngagementRate logsC9 prefsC9 = 3333 / 100 ∧
    AnalyticsEngine.detailedEngagementRate logsC9 prefsC9 ≠
      (AnalyticsEngine.readCount prefsC9 : ℚ) /
        (AnalyticsEngine.deliveredCount logsC9 : ℚ) * 100 := by
  have h1 : AnalyticsEngine.deliveredCount logsC9 = 3 := rfl
  have h2 : AnalyticsEngine.readCount prefsC9 = 1 := rfl
  have h3 : AnalyticsEngine.detailedEngagementRate logsC9 prefsC9 = 3333 / 100 := by
    unfold AnalyticsEngine.detailedEngagementRate AnalyticsEngine.engagementRateRaw
    rw [h1, h2]
    norm_num [jsRound]
  refine ⟨h1, h2, h3, ?_⟩
  rw [h3, h1, h2]
  norm_num

/-- C9 (amended): when there is at least one successful delivery the
returned engagementRate is readCount / deliveredCount * 100 rounded half-up
to two decimals, hence within 1/200 of the exact ratio; it equals the exact
ratio in cases like 1 read of 2 delivered, where it is exactly 50; with no
successful delivery it is 0. -/
theorem C9_engagement_rounded (deliveryLogs : List DeliveryLog)
    (preferences : List UserAlertPreference)
    (hd : 0 < AnalyticsEngine.deliveredCount deliveryLogs) :
    AnalyticsEngine.detailedEngagementRate deliveryLogs preferences =
      (jsRound ((AnalyticsEngine.readCount preferences : ℚ) /
        (AnalyticsEngine.deliveredCount deliveryLogs : ℚ) * 100 * 100) : ℚ) / 100 ∧
    |AnalyticsEngine.detailedEngagementRate deliveryLogs preferences -
      (AnalyticsEngine.readCount preferences : ℚ) /
        (AnalyticsEngine.deliveredCount deliveryLogs : ℚ) * 100| ≤ 1 / 200 ∧
    (2 * (AnalyticsEngine.readCount preferences : ℚ) =
        (AnalyticsEngine.deliveredCount deliveryLogs : ℚ) →
      AnalyticsEngine.detailedEngagementRate deliveryLogs preferences = 50) ∧
    (∀ logs0 : List DeliveryLog, AnalyticsEngine.deliveredCount logs0 = 0 →
      AnalyticsEngine.detailedEngagementRate logs0 preferences = 0) := by
  have heq : AnalyticsEngine.detailedEngagementRate deliveryLogs preferences =
      (jsRound ((AnalyticsEngine.readCount preferences : ℚ) /
        (AnalyticsEngine.deliveredCount deliveryLogs : ℚ) * 100 * 100) : ℚ) / 100 := by
    unfold AnalyticsEngine.detailedEngagementRate AnalyticsEngine.engagementRateRaw
    rw [if_pos hd]
  refine ⟨heq, ?_, ?_, ?_⟩
  · have hfl := Int.floor_le ((AnalyticsEngine.readCount preferences : ℚ) /
      (AnalyticsEngine.deliveredCount deliveryLogs : ℚ) * 100 * 100 + 1 / 2)
    have hfl2 := Int.lt_floor_add_one ((AnalyticsEngine.readCount preferences : ℚ) /
      (AnalyticsEngine.deliveredCount deliveryLogs : ℚ) * 100 * 100 + 1 / 2)
    rw [heq, abs_le]
    unfold jsRound
    constructor <;> linarith
  · intro h2
    have hdq : (0 : ℚ) < (AnalyticsEngine.deliveredCount deliveryLogs : ℚ) := by
      exact_mod_cast hd
    have hr : (AnalyticsEngine.readCount preferences : ℚ) ≠ 0 := by
      intro h0
      rw [h0, mul_zero] at h2
      exact (ne_of_gt hdq) h2.symm
    have hy : (AnalyticsEngine.readCount preferences : ℚ) /
        (AnalyticsEngine.deliveredCount deliveryLogs : ℚ) * 100 = 50 := by
      rw [← h2]
      field_simp
      ring
    have h5000 : (AnalyticsEngine.readCount preferences : ℚ) /
        (AnalyticsEngine.deliveredCount deliveryLogs : ℚ) * 100 * 100 = 5000 := by
      rw [hy]
      norm_num
    rw [heq, h5000]
    norm_num [jsRound]
  · intro logs0 h0
    unfold AnalyticsEngine.detailedEngagementRate AnalyticsEngine.engagementRateRaw
    rw [h0]
    norm_num [jsRound]

/-- Witness for C9 at two delivered entries and one read preference: the
engagement rate is exactly 50. -/
theorem C9_engagement_rounded_witness :
    0 < AnalyticsEngine.deliveredCount logsC9pair ∧
    (AnalyticsEngine.detailedEngagementRate logsC9pair prefsC9 =
      (jsRound ((AnalyticsEngine.readCount prefsC9 : ℚ) /
        (AnalyticsEngine.deliveredCount logsC9pair : ℚ) * 100 * 100) : ℚ) / 100 ∧
    |AnalyticsEngine.detailedEngagementRate logsC9pair prefsC9 -
      (AnalyticsEngine.readCount prefsC9 : ℚ) /
        (AnalyticsEngine.deliveredCount logsC9pair : ℚ) * 100| ≤ 1 / 200 ∧
    (2 * (AnalyticsEngine.readCount prefsC9 : ℚ) =
        (AnalyticsEngine.deliveredCount logsC9pair : ℚ) →
      AnalyticsEngine.detailedEngagementRate logsC9pair prefsC9 = 50) ∧
    (∀ logs0 : List DeliveryLog, AnalyticsEngine.deliveredCount logs0 = 0 →
      AnalyticsEngine.detailedEngagementRate logs0 prefsC9 = 0)) :=
  ⟨by decide, C9_engagement_rounded logsC9pair prefsC9 (by decide)⟩
